import Mathlib

/-!
Verification of the connection-handshake core of a MongoDB Rust driver
(`src/cmap/establish/handshake/mod.rs`) and the `listIndexes` catalog
operation (`src/operation/list_indexes/mod.rs`), as a shallow embedding.

BSON documents are modelled as ordered association lists of key-value
pairs; `Document.insert` follows the bson crate ordered map: replacing
the value in place when the key exists, appending otherwise. External
collaborators (the command-execution pipeline, the
authentication-mechanism registry, credential helpers) are either
parameters of the embedded functions or definitions marked
`Modelled from the spec:`.
-/

namespace MongoDriver

/-- A BSON value, restricted to the shapes this core manipulates. -/
inductive Bson where
  | str : String → Bson
  | int : Int → Bson
  | bool : Bool → Bson
  | doc : List (String × Bson) → Bson

/-- A BSON document: an ordered list of key-value pairs (bson crate
`Document`). Documents built by the embedded code never repeat a key, so
each key identifies at most one entry. -/
def Document := List (String × Bson)

/-- Embeds bson `Document::insert` on an ordered map: replace the value of
the first entry holding the key, keeping its position; append the pair at
the end when the key is absent. -/
def Document.insert (d : Document) (k : String) (v : Bson) : Document :=
  match d with
  | [] => [(k, v)]
  | (k', v') :: rest =>
    if k' == k then (k, v) :: rest
    else (k', v') :: Document.insert rest k v

/-- Embeds bson `Document::contains_key`. -/
def Document.containsKey (d : Document) (k : String) : Bool :=
  match d with
  | [] => false
  | (k', _) :: rest => k' == k || Document.containsKey rest k

/-- Embeds bson `Document::get`: the value stored under a key, if any. -/
def Document.get (d : Document) (k : String) : Option Bson :=
  match d with
  | [] => none
  | (k', v) :: rest => if k' == k then some v else Document.get rest k

/-- The error kinds this core can surface (`ErrorKind` in `error.rs`,
restricted to the kinds reachable from the embedded code; transport and
authentication failures of external collaborators are carried as opaque
values of this type). -/
inductive MError where
  | incompatibleServer (message : String)
  | authenticationError (message : String)
  | transport (message : String)

/-- Embeds `AppMetadata`. -/
structure AppMetadata where
  name : String

/-- Embeds `DriverMetadata`. -/
structure DriverMetadata where
  name : String
  version : String

/-- Embeds `OsMetadata`. -/
structure OsMetadata where
  os_type : String
  name : Option String
  architecture : String
  version : Option String

/-- Embeds `ClientMetadata`. -/
structure ClientMetadata where
  application : Option AppMetadata
  driver : DriverMetadata
  os : OsMetadata
  platform : Option String

/-- Embeds `impl From OsMetadata for Bson`: document with mandatory
`type` and `architecture`, optional fields inserted only when present. -/
def OsMetadata.toDoc (metadata : OsMetadata) : Document :=
  let d : Document := [("type", Bson.str metadata.os_type)]
  let d := match metadata.name with
    | some name => Document.insert d "name" (Bson.str name)
    | none => d
  let d := Document.insert d "architecture" (Bson.str metadata.architecture)
  match metadata.version with
  | some version => Document.insert d "version" (Bson.str version)
  | none => d

/-- Embeds `impl From ClientMetadata for Bson`: optional `application`,
mandatory `driver` and `os`, optional `platform`. -/
def ClientMetadata.toDoc (metadata : ClientMetadata) : Document :=
  let d : Document := []
  let d := match metadata.application with
    | some application =>
        Document.insert d "application" (Bson.doc [("name", Bson.str application.name)])
    | none => d
  let d := Document.insert d "driver"
    (Bson.doc [("name", Bson.str metadata.driver.name),
               ("version", Bson.str metadata.driver.version)])
  let d := Document.insert d "os" (Bson.doc (OsMetadata.toDoc metadata.os))
  match metadata.platform with
  | some platform => Document.insert d "platform" (Bson.str platform)
  | none => d

/-- Embeds the conversion of `ClientMetadata` into a `Bson` value. -/
def ClientMetadata.toBson (metadata : ClientMetadata) : Bson :=
  Bson.doc (ClientMetadata.toDoc metadata)

/-- The process-local facts probed when building `BASE_CLIENT_METADATA`:
the crate version baked in at build time, the compile-time OS and
architecture constants, the optional OS version reported by the os_info
probe (absent when the probe reports an unknown OS or version), the
optional rustc (version, channel, date) triple from version_check, and
the runtime name constant. -/
structure ProcessEnv where
  cargo_pkg_version : String
  os_type : String
  arch : String
  os_version : Option String
  rustc_triple : Option (String × String × String)
  runtime_name : String

/-- Embeds the `BASE_CLIENT_METADATA` lazy static, parameterized by the
process-probed facts: application absent, driver name fixed to
`mongo-rust-driver`, OS name absent, OS version and platform filled only
when the probes succeed. -/
def BASE_CLIENT_METADATA (env : ProcessEnv) : ClientMetadata :=
  { application := none
    driver := { name := "mongo-rust-driver", version := env.cargo_pkg_version }
    os := { os_type := env.os_type, architecture := env.arch,
            name := none, version := env.os_version }
    platform := Option.map
      (fun t => "rustc " ++ t.1 ++ " " ++ t.2.1 ++ " (" ++ t.2.2 ++ ") with "
                  ++ env.runtime_name)
      env.rustc_triple }

/-- The authentication mechanisms (`AuthMechanism` in `options`),
external to the handshake module. -/
inductive AuthMechanism where
  | scramSha1
  | scramSha256
  | mongoDbX509
deriving DecidableEq

/-- A credential (`Credential` in `options`, external entity consumed
read-only here): optional username, an already-resolved source database,
and an optional declared mechanism. -/
structure Credential where
  username : Option String
  source : String
  mechanism : Option AuthMechanism

/-- Modelled from the spec: the external, credential-owned call
"resolve the credential source database" (`Credential::resolved_source`,
not among the provided sources); the credential carries its resolved
source directly. -/
def Credential.resolved_source (credential : Credential) : String :=
  credential.source

/-- Modelled from the spec: the external, credential-owned call
"insert mechanism-negotiation hints into a document"
(`Credential::append_needed_mechanism_negotiation`, not among the
provided sources); when the credential has a username but no declared
mechanism the hint `saslSupportedMechs` is inserted so the server can
report the mechanisms usable for this user. -/
def Credential.append_needed_mechanism_negotiation
    (credential : Credential) (body : Document) : Document :=
  match credential.username, credential.mechanism with
  | some username, none =>
      Document.insert body "saslSupportedMechs"
        (Bson.str (Credential.resolved_source credential ++ "." ++ username))
  | _, _ => body

/-- A declared server API version (`ServerApi` in `options`), reduced to
the version string the handshake command declares. -/
structure ServerApi where
  version : String

/-- A wrapping-library identity (`DriverInfo` in `options`). -/
structure DriverInfo where
  name : String
  version : Option String
  platform : Option String

/-- Embeds `Command` (`cmap`): name, target database and body document. -/
structure Command where
  name : String
  target_db : String
  body : Document

/-- Embeds `Command::new`. -/
def Command.new (name : String) (target_db : String) (body : Document) : Command :=
  { name := name, target_db := target_db, body := body }

/-- Modelled from the spec: `is_master_command` (in the `is_master`
module, not among the provided sources) builds the base capability
command: the command name key, target database, and the API-version
declaration when the caller opted in. -/
def is_master_command (server_api : Option ServerApi) : Command :=
  let body : Document := [("isMaster", Bson.int 1)]
  let body := match server_api with
    | some api => Document.insert body "apiVersion" (Bson.str api.version)
    | none => body
  Command.new "isMaster" "admin" body

/-- Modelled from the spec: `ClientFirst` (in `client::auth`, not among
the provided sources) is the client-side first authentication message,
opaque to this core beyond being convertible to a document. -/
structure ClientFirst where
  payload : Document

/-- Modelled from the spec: the document form of a client-first message. -/
def ClientFirst.to_document (client_first : ClientFirst) : Document :=
  client_first.payload

/-- Modelled from the spec: `FirstRound` pairs the client-first message
with the corresponding server response. -/
structure FirstRound where
  client_first : ClientFirst
  server_first : Document

/-- Modelled from the spec: `ClientFirst::into_first_round` pairs this
client-first with the server response. -/
def ClientFirst.into_first_round
    (client_first : ClientFirst) (server_first : Document) : FirstRound :=
  { client_first := client_first, server_first := server_first }

/-- The reply fields this core reads (`IsMasterReply` and its command
response, external): the server address, the optional load-balancer
service identifier and the optional speculative-authentication server
response; the remaining capability fields are passed through opaquely. -/
structure CommandResponse where
  service_id : Option String
  speculative_authenticate : Option Document

/-- Embeds the slice of `IsMasterReply` this core reads. -/
structure IsMasterReply where
  server_address : String
  command_response : CommandResponse

/-- Modelled from the spec: the slice of `StreamDescription` this core
produces (external, in `cmap`): the cached view of the server reply for
subsequent routing, keyed by the server address. -/
structure StreamDescription where
  server_address : String
  reply : IsMasterReply

/-- Modelled from the spec: `StreamDescription::from_is_master` derives
the stream description from the handshake reply. -/
def StreamDescription.from_is_master (reply : IsMasterReply) : StreamDescription :=
  { server_address := reply.server_address, reply := reply }

/-- The slice of `Connection` this core touches: its optional stream
description. -/
structure Connection where
  stream_description : Option StreamDescription

/-- Embeds `HandshakerOptions`. -/
structure HandshakerOptions where
  app_name : Option String
  credential : Option Credential
  driver_info : Option DriverInfo
  server_api : Option ServerApi
  load_balanced : Bool

/-- The slice of `ClientOptions` consumed by
`From ClientOptions for HandshakerOptions`; `load_balanced` is still
optional here. -/
structure ClientOptions where
  app_name : Option String
  credential : Option Credential
  driver_info : Option DriverInfo
  server_api : Option ServerApi
  load_balanced : Option Bool

/-- Embeds `impl From ClientOptions for HandshakerOptions`: the
load-balanced flag defaults to false when unset. -/
def HandshakerOptions.from_client_options (options : ClientOptions) : HandshakerOptions :=
  { app_name := options.app_name
    credential := options.credential
    driver_info := options.driver_info
    server_api := options.server_api
    load_balanced := options.load_balanced.getD false }

/-- Embeds `HandshakeResult`. -/
structure HandshakeResult where
  is_master_reply : IsMasterReply
  first_round : Option FirstRound

/-- Embeds `Handshaker`: the precomputed command template and the
optional retained credential. -/
structure Handshaker where
  command : Command
  credential : Option Credential

/-- Embeds the metadata customization block of `Handshaker::new`
(lines setting `metadata.application` and extending
`metadata.driver.name`, `metadata.driver.version` and
`metadata.platform` from `driver_info`): the application name is set
when supplied; each wrapping-library field is appended after a `|`
separator, the platform only when a base platform exists. -/
def customize_metadata (metadata : ClientMetadata) (options : HandshakerOptions) :
    ClientMetadata :=
  let metadata := match options.app_name with
    | some app_name => { metadata with application := some { name := app_name } }
    | none => metadata
  match options.driver_info with
  | none => metadata
  | some driver_info =>
    let name := metadata.driver.name ++ "|" ++ driver_info.name
    let version := match driver_info.version with
      | some v => metadata.driver.version ++ "|" ++ v
      | none => metadata.driver.version
    let platform := match metadata.platform, driver_info.platform with
      | some p, some dp => some (p ++ "|" ++ dp)
      | p, _ => p
    { metadata with driver := { name := name, version := version },
                    platform := platform }

/-- Embeds `Handshaker::new`: clone the base metadata, build the base
command (with the API declaration when opted in), customize the metadata
from the options, insert the mechanism-negotiation hints and retarget
the command when a credential is supplied, set the `loadBalanced` flag
when requested, and finally attach the metadata under `client`. -/
def Handshaker.new (env : ProcessEnv) (options : Option HandshakerOptions) :
    Handshaker :=
  let metadata := BASE_CLIENT_METADATA env
  let command := is_master_command (Option.bind options (fun o => o.server_api))
  match options with
  | none =>
    let command := { command with
      body := Document.insert command.body "client" (ClientMetadata.toBson metadata) }
    { command := command, credential := none }
  | some options =>
    let metadata := customize_metadata metadata options
    let command := match options.credential with
      | some cred =>
        { command with
            body := Credential.append_needed_mechanism_negotiation cred command.body
            target_db := Credential.resolved_source cred }
      | none => command
    let command := if options.load_balanced then
        { command with body := Document.insert command.body "loadBalanced" (Bson.bool true) }
      else command
    let command := { command with
      body := Document.insert command.body "client" (ClientMetadata.toBson metadata) }
    { command := command, credential := options.credential }

/-- Embeds the mechanism selection inside `set_speculative_auth_info`:
the declared mechanism, defaulting to SCRAM-SHA-256 when none is
declared. -/
def selected_auth_mechanism (credential : Credential) : AuthMechanism :=
  credential.mechanism.getD AuthMechanism.scramSha256

/-- Embeds `set_speculative_auth_info`, parameterized by the external
mechanism-registry call `build_speculative_client_first` (`build`): with
no credential, no speculative state and the body untouched; otherwise
ask the selected mechanism to build a client-first, propagating its
error, leaving the body untouched when it declines, and inserting the
client-first document under `speculativeAuthenticate` when it succeeds. -/
def set_speculative_auth_info
    (build : AuthMechanism → Credential → Except MError (Option ClientFirst))
    (command : Document) (credential : Option Credential) :
    Except MError (Document × Option ClientFirst) :=
  match credential with
  | none => Except.ok (command, none)
  | some credential =>
    match build (selected_auth_mechanism credential) credential with
    | Except.error e => Except.error e
    | Except.ok none => Except.ok (command, none)
    | Except.ok (some client_first) =>
      Except.ok
        (Document.insert command "speculativeAuthenticate"
           (Bson.doc (ClientFirst.to_document client_first)),
         some client_first)

/-- The message of the incompatible-server error raised when
load-balanced mode was requested but the reply carries no service
identifier. -/
def loadBalancingErrorMessage : String :=
  "Driver attempted to initialize in load balancing mode, but the server does not support this mode."

/-- Embeds `Handshaker::handshake`, parameterized by the external
collaborators `build` (mechanism registry) and `run` (command-execution
pipeline, `run_is_master`); the connection is threaded explicitly, so
the error paths return it unchanged. Steps, in source order: clone the
template body, attach speculative-auth info, run the command, fail with
the incompatible-server error when the template requested load-balanced
mode but the reply has no service identifier, set the stream description
from the reply, then pair the client-first with the server response
taken out of the reply when both exist. -/
def Handshaker.handshake
    (build : AuthMechanism → Credential → Except MError (Option ClientFirst))
    (run : Command → Except MError IsMasterReply)
    (h : Handshaker) (conn : Connection) :
    Connection × Except MError HandshakeResult :=
  match set_speculative_auth_info build h.command.body h.credential with
  | Except.error e => (conn, Except.error e)
  | Except.ok (body, client_first) =>
    match run { h.command with body := body } with
    | Except.error e => (conn, Except.error e)
    | Except.ok is_master_reply =>
      if Document.containsKey h.command.body "loadBalanced"
          && is_master_reply.command_response.service_id.isNone then
        (conn, Except.error (MError.incompatibleServer loadBalancingErrorMessage))
      else
        let conn := { conn with
          stream_description := some (StreamDescription.from_is_master is_master_reply) }
        match client_first, is_master_reply.command_response.speculative_authenticate with
        | some cf, some server_first =>
          (conn, Except.ok
            { is_master_reply := { is_master_reply with
                command_response := { is_master_reply.command_response with
                  speculative_authenticate := none } }
              first_round := some (ClientFirst.into_first_round cf server_first) })
        | _, _ =>
          (conn, Except.ok { is_master_reply := is_master_reply, first_round := none })

/-- Modelled from the spec: the external authentication-mechanism
registry call "attempt building a speculative first-round message for
mechanism X" (`AuthMechanism::build_speculative_client_first`, not among
the provided sources): the SCRAM mechanisms and X.509 support
speculative composition and produce a client-first message derived from
the credential. -/
def AuthMechanism.build_speculative_client_first
    (mechanism : AuthMechanism) (credential : Credential) :
    Except MError (Option ClientFirst) :=
  match mechanism with
  | AuthMechanism.scramSha1 =>
    Except.ok (some { payload :=
      [("saslStart", Bson.int 1), ("mechanism", Bson.str "SCRAM-SHA-1"),
       ("db", Bson.str (Credential.resolved_source credential))] })
  | AuthMechanism.scramSha256 =>
    Except.ok (some { payload :=
      [("saslStart", Bson.int 1), ("mechanism", Bson.str "SCRAM-SHA-256"),
       ("db", Bson.str (Credential.resolved_source credential))] })
  | AuthMechanism.mongoDbX509 =>
    Except.ok (some { payload :=
      [("authenticate", Bson.int 1), ("mechanism", Bson.str "MONGODB-X509")] })

/-- Embeds `Namespace` (database and collection name). -/
structure MongoNamespace where
  db : String
  coll : String

/-- Embeds `ListIndexOptions`: the optional batch size and the optional
maximum server-side execution time in milliseconds. -/
structure ListIndexOptions where
  batch_size : Option Int
  max_time : Option Int

/-- The cursor information of a cursor-producing command reply
(`CursorBody::cursor`, external), opaque here. -/
structure CursorInfo where
  id : Int
  ns : String
  first_batch : List Document

/-- Embeds the slice of `CursorBody` this operation reads. -/
structure CursorBody where
  cursor : CursorInfo

/-- Embeds `CursorSpecification` (external, in `cursor`): the reply
cursor, the address it lives on, and the batch-size and max-time options
carried to iteration. -/
structure CursorSpecification where
  cursor : CursorInfo
  address : String
  batch_size : Option Int
  max_time : Option Int

/-- Modelled from the spec: `CursorSpecification::new` (not among the
provided sources) packages its arguments. -/
def CursorSpecification.new (cursor : CursorInfo) (address : String)
    (batch_size : Option Int) (max_time : Option Int) : CursorSpecification :=
  { cursor := cursor, address := address,
    batch_size := batch_size, max_time := max_time }

/-- The slice of `StreamDescription` read by `ListIndexes`: the server
address. -/
def StreamDescription.address (description : StreamDescription) : String :=
  description.server_address

/-- Embeds `ListIndexes`. -/
structure ListIndexes where
  ns : MongoNamespace
  options : Option ListIndexOptions

/-- Embeds `ListIndexes::new`. -/
def ListIndexes.new (ns : MongoNamespace) (options : Option ListIndexOptions) :
    ListIndexes :=
  { ns := ns, options := options }

/-- Embeds the associated constant `ListIndexes::NAME`. -/
def ListIndexes.NAME : String := "listIndexes"

/-- Modelled from the spec: the shared operation helper `append_options`
(in the `operation` module root, not among the provided sources)
serializes the options, when present, into the command body under their
wire names. -/
def append_options (body : Document) (options : Option ListIndexOptions) :
    Except MError Document :=
  match options with
  | none => Except.ok body
  | some options =>
    let body := match options.batch_size with
      | some n => Document.insert body "batchSize" (Bson.int n)
      | none => body
    let body := match options.max_time with
      | some ms => Document.insert body "maxTimeMS" (Bson.int ms)
      | none => body
    Except.ok body

/-- Embeds `ListIndexes::build`: a body opening with the `listIndexes`
key mapped to the collection name, extended with the serialized options,
packaged as a command named `listIndexes` targeting the namespace
database. -/
def ListIndexes.build (op : ListIndexes) (_d : StreamDescription) : Except MError Command :=
  let body : Document := [("listIndexes", Bson.str op.ns.coll)]
  match append_options body op.options with
  | Except.error e => Except.error e
  | Except.ok body => Except.ok (Command.new ListIndexes.NAME op.ns.db body)

/-- Embeds `ListIndexes::handle_response`: a cursor specification built
from the reply cursor, the server address of the stream description, and
the batch-size and max-time options. -/
def ListIndexes.handle_response (op : ListIndexes) (response : CursorBody)
    (description : StreamDescription) : Except MError CursorSpecification :=
  Except.ok
    (CursorSpecification.new response.cursor (StreamDescription.address description)
      (Option.bind op.options (fun o => o.batch_size))
      (Option.bind op.options (fun o => o.max_time)))

/-! ### Concrete sample values used to instantiate the theorems -/

/-- A concrete process environment for instantiations. -/
def sampleEnv : ProcessEnv :=
  { cargo_pkg_version := "2.0.0", os_type := "linux", arch := "x86_64",
    os_version := some "5.15", rustc_triple := some ("1.57.0", "stable", "2021-12-02"),
    runtime_name := "tokio" }

/-- A concrete credential with no declared mechanism. -/
def sampleCred : Credential :=
  { username := some "alice", source := "admin", mechanism := none }

/-- A concrete wrapping-library identity. -/
def sampleDriverInfo : DriverInfo :=
  { name := "wrapperA", version := some "9", platform := some "node" }

/-- Options requesting load-balanced mode, nothing else. -/
def lbOptions : HandshakerOptions :=
  { app_name := none, credential := none, driver_info := none,
    server_api := none, load_balanced := true }

/-- Options with all fields unset. -/
def plainOptions : HandshakerOptions :=
  { app_name := none, credential := none, driver_info := none,
    server_api := none, load_balanced := false }

/-- Options carrying only the sample credential. -/
def credOptions : HandshakerOptions :=
  { app_name := none, credential := some sampleCred, driver_info := none,
    server_api := none, load_balanced := false }

/-- Options carrying only the sample wrapping-library identity. -/
def wrapOptions : HandshakerOptions :=
  { app_name := none, credential := none, driver_info := some sampleDriverInfo,
    server_api := none, load_balanced := false }

/-- The Handshaker built from the load-balanced options. -/
def lbHandshaker : Handshaker := Handshaker.new sampleEnv (some lbOptions)

/-- The Handshaker built from the empty options. -/
def plainHandshaker : Handshaker := Handshaker.new sampleEnv (some plainOptions)

/-- A mechanism registry that always declines speculative composition. -/
def noopBuild : AuthMechanism → Credential → Except MError (Option ClientFirst) :=
  fun _ _ => Except.ok none

/-- A reply carrying neither a service identifier nor a speculative
response. -/
def replyNoService : IsMasterReply :=
  { server_address := "localhost:27017",
    command_response := { service_id := none, speculative_authenticate := none } }

/-- A reply carrying a service identifier and a speculative response. -/
def replyWithService : IsMasterReply :=
  { server_address := "localhost:27017",
    command_response := { service_id := some "svc",
                          speculative_authenticate := some [("done", Bson.bool true)] } }

/-- An execution collaborator answering with `replyNoService`. -/
def runNoService : Command → Except MError IsMasterReply :=
  fun _ => Except.ok replyNoService

/-- An execution collaborator answering with `replyWithService`. -/
def runWithService : Command → Except MError IsMasterReply :=
  fun _ => Except.ok replyWithService

/-- A connection with no stream description yet. -/
def freshConn : Connection := { stream_description := none }

/-! ### Document lemmas -/

theorem Document.containsKey_insert (d : Document) (k k' : String) (v : Bson) :
    Document.containsKey (Document.insert d k v) k' =
      (Document.containsKey d k' || k == k') := by
  induction d with
  | nil => simp [Document.insert, Document.containsKey]
  | cons hd tl ih =>
    obtain ⟨hk, hv⟩ := hd
    unfold Document.insert
    by_cases hhd : hk == k
    · have hk_eq : hk = k := by simpa using hhd
      simp only [hhd, if_pos]
      subst hk_eq
      simp [Document.containsKey, Bool.or_assoc, Bool.or_comm, Bool.or_left_comm]
    · simp only [hhd, if_neg, Bool.false_eq_true, not_false_iff]
      simp [Document.containsKey, ih, Bool.or_assoc]

theorem Document.get_insert_self (d : Document) (k : String) (v : Bson) :
    Document.get (Document.insert d k v) k = some v := by
  induction d with
  | nil => simp [Document.insert, Document.get]
  | cons hd tl ih =>
    obtain ⟨hk, hv⟩ := hd
    unfold Document.insert
    by_cases hhd : hk == k
    · simp [hhd, Document.get]
    · simp [hhd, Document.get, ih]

theorem Document.get_insert_ne (d : Document) (k k' : String) (v : Bson)
    (h : k ≠ k') :
    Document.get (Document.insert d k v) k' = Document.get d k' := by
  induction d with
  | nil =>
    have hkk' : (k == k') = false := by simpa using h
    simp [Document.insert, Document.get, hkk']
  | cons hd tl ih =>
    obtain ⟨hk, hv⟩ := hd
    unfold Document.insert
    by_cases hhd : hk == k
    · have hk_eq : hk = k := by simpa using hhd
      subst hk_eq
      have hkk' : (hk == k') = false := by simpa using h
      simp [hhd, Document.get, hkk']
    · by_cases hh' : hk == k'
      · simp [hhd, hh', Document.get]
      · simp [hhd, hh', Document.get, ih]

theorem set_speculative_auth_info_some
    (build : AuthMechanism → Credential → Except MError (Option ClientFirst))
    (body : Document) (cred : Credential) :
    set_speculative_auth_info build body (some cred) =
      match build (selected_auth_mechanism cred) cred with
      | Except.error e => Except.error e
      | Except.ok none => Except.ok (body, none)
      | Except.ok (some client_first) =>
        Except.ok
          (Document.insert body "speculativeAuthenticate"
             (Bson.doc (ClientFirst.to_document client_first)),
           some client_first) := rfl

theorem handshake_spec_auth_error
    (build : AuthMechanism → Credential → Except MError (Option ClientFirst))
    (run : Command → Except MError IsMasterReply)
    (h : Handshaker) (conn : Connection) (e : MError)
    (hs : set_speculative_auth_info build h.command.body h.credential =
      Except.error e) :
    Handshaker.handshake build run h conn = (conn, Except.error e) := by
  unfold Handshaker.handshake
  rw [hs]

theorem handshake_run_error
    (build : AuthMechanism → Credential → Except MError (Option ClientFirst))
    (run : Command → Except MError IsMasterReply)
    (h : Handshaker) (conn : Connection) (body : Document)
    (cf : Option ClientFirst) (e : MError)
    (hs : set_speculative_auth_info build h.command.body h.credential =
      Except.ok (body, cf))
    (hr : run { h.command with body := body } = Except.error e) :
    Handshaker.handshake build run h conn = (conn, Except.error e) := by
  unfold Handshaker.handshake
  rw [hs]
  dsimp only
  rw [hr]

theorem handshake_eq
    (build : AuthMechanism → Credential → Except MError (Option ClientFirst))
    (run : Command → Except MError IsMasterReply)
    (h : Handshaker) (conn : Connection) (body : Document)
    (cf : Option ClientFirst) (reply : IsMasterReply)
    (hs : set_speculative_auth_info build h.command.body h.credential =
      Except.ok (body, cf))
    (hr : run { h.command with body := body } = Except.ok reply) :
    Handshaker.handshake build run h conn =
      (if Document.containsKey h.command.body "loadBalanced"
          && reply.command_response.service_id.isNone then
        (conn, Except.error (MError.incompatibleServer loadBalancingErrorMessage))
      else
        match cf, reply.command_response.speculative_authenticate with
        | some c, some server_first =>
          ({ conn with
              stream_description := some (StreamDescription.from_is_master reply) },
           Except.ok
             { is_master_reply := { reply with
                 command_response := { reply.command_response with
                   speculative_authenticate := none } }
               first_round := some (ClientFirst.into_first_round c server_first) })
        | _, _ =>
          ({ conn with
              stream_description := some (StreamDescription.from_is_master reply) },
           Except.ok { is_master_reply := reply, first_round := none })) := by
  unfold Handshaker.handshake
  rw [hs]
  dsimp only
  rw [hr]

/-! ### Claim theorems -/

/-- C5: for every command body and credential,
`set_speculative_auth_info` mutates the body exactly when it returns a
client-first value, the only mutation being the insertion of that value
as a document under the `speculativeAuthenticate` key; when the selected
mechanism declines to build a first round, the body is unchanged and no
error is raised. -/
theorem set_speculative_auth_info_frame
    (build : AuthMechanism → Credential → Except MError (Option ClientFirst))
    (body : Document) (credential : Option Credential)
    (body' : Document) (cf : Option ClientFirst)
    (h : set_speculative_auth_info build body credential = Except.ok (body', cf)) :
    (cf = none → body' = body) ∧
    (∀ c, cf = some c →
      body' = Document.insert body "speculativeAuthenticate"
                (Bson.doc (ClientFirst.to_document c))) ∧
    (∀ cred, credential = some cred →
      build (selected_auth_mechanism cred) cred = Except.ok none →
      body' = body ∧ cf = none) := by
  cases credential with
  | none =>
    have h' : Except.ok (Prod.mk body (none : Option ClientFirst)) =
        Except.ok (body', cf) := h
    simp only [Except.ok.injEq, Prod.mk.injEq] at h'
    obtain ⟨rfl, rfl⟩ := h'
    refine ⟨?_, ?_, ?_⟩
    · intro _
      rfl
    · intro c hc
      cases hc
    · intro cred hcred
      cases hcred
  | some cred =>
    rw [set_speculative_auth_info_some] at h
    cases hb : build (selected_auth_mechanism cred) cred with
    | error e => rw [hb] at h; cases h
    | ok cfo =>
      rw [hb] at h
      cases cfo with
      | none =>
        simp only [Except.ok.injEq, Prod.mk.injEq] at h
        obtain ⟨rfl, rfl⟩ := h
        refine ⟨?_, ?_, ?_⟩
        · intro _
          rfl
        · intro c hc
          cases hc
        · intro _ _ _
          exact ⟨rfl, rfl⟩
      | some c0 =>
        simp only [Except.ok.injEq, Prod.mk.injEq] at h
        obtain ⟨rfl, rfl⟩ := h
        refine ⟨?_, ?_, ?_⟩
        · intro hn
          cases hn
        · intro c hc
          cases hc
          rfl
        · intro cred' hcred' hb'
          cases hcred'
          rw [hb] at hb'
          cases hb'

/-- C5 witness: instantiation at a mechanism registry that declines to
build a first round, on the empty body with a concrete credential. -/
theorem set_speculative_auth_info_frame_witness :
    ([] : Document) = ([] : Document) ∧ (none : Option ClientFirst) = none :=
  (set_speculative_auth_info_frame (fun _ _ => Except.ok none) []
      (some { username := some "alice", source := "admin", mechanism := none })
      [] none rfl).2.2
    { username := some "alice", source := "admin", mechanism := none } rfl rfl

/-- C1: when the handshake command template contains the `loadBalanced`
key and the reply carries no service identifier, `handshake` returns the
incompatible-server error with the connection unchanged (its stream
description left unset); when the reply carries a service identifier,
the call succeeds and the stream description is set from the reply. -/
theorem handshake_load_balanced_service_id
    (build : AuthMechanism → Credential → Except MError (Option ClientFirst))
    (run : Command → Except MError IsMasterReply)
    (h : Handshaker) (conn : Connection) (body : Document)
    (cf : Option ClientFirst) (reply : IsMasterReply)
    (hlb : Document.containsKey h.command.body "loadBalanced" = true)
    (hs : set_speculative_auth_info build h.command.body h.credential =
      Except.ok (body, cf))
    (hr : run { h.command with body := body } = Except.ok reply) :
    (reply.command_response.service_id = none →
      Handshaker.handshake build run h conn =
        (conn, Except.error (MError.incompatibleServer loadBalancingErrorMessage))) ∧
    (∀ sid, reply.command_response.service_id = some sid →
      (Handshaker.handshake build run h conn).1.stream_description =
        some (StreamDescription.from_is_master reply) ∧
      ∃ r, (Handshaker.handshake build run h conn).2 = Except.ok r) := by
  rw [handshake_eq build run h conn body cf reply hs hr]
  constructor
  · intro hnone
    rw [hlb, hnone]
    rfl
  · intro sid hsid
    rw [hlb, hsid]
    simp only [Option.isNone_some, Bool.and_false, Bool.false_eq_true,
      if_neg, not_false_iff]
    cases cf with
    | none =>
      cases hsa : reply.command_response.speculative_authenticate with
      | none => exact ⟨rfl, _, rfl⟩
      | some sf => exact ⟨rfl, _, rfl⟩
    | some c =>
      cases hsa : reply.command_response.speculative_authenticate with
      | none => exact ⟨rfl, _, rfl⟩
      | some sf => exact ⟨rfl, _, rfl⟩

/-- C1 witness: a load-balanced template handshaken against a reply
without a service identifier yields exactly the incompatible-server
error with the connection untouched. -/
theorem handshake_load_balanced_service_id_witness :
    Handshaker.handshake noopBuild runNoService lbHandshaker freshConn =
      (freshConn, Except.error (MError.incompatibleServer loadBalancingErrorMessage)) :=
  (handshake_load_balanced_service_id noopBuild runNoService lbHandshaker
    freshConn lbHandshaker.command.body none replyNoService rfl rfl rfl).1 rfl

/-- C2: the stream description is assigned exactly when `handshake`
returns successfully: every failure (speculative composition, command
execution, or the incompatible-server check) returns the error with the
connection unchanged, so an initially unset stream description stays
unset. -/
theorem handshake_stream_description_iff_success
    (build : AuthMechanism → Credential → Except MError (Option ClientFirst))
    (run : Command → Except MError IsMasterReply)
    (h : Handshaker) (conn : Connection)
    (hinit : conn.stream_description = none) :
    ((∃ r, (Handshaker.handshake build run h conn).2 = Except.ok r) ↔
      (Handshaker.handshake build run h conn).1.stream_description.isSome = true) ∧
    (∀ e, (Handshaker.handshake build run h conn).2 = Except.error e →
      (Handshaker.handshake build run h conn).1 = conn) := by
  cases hs : set_speculative_auth_info build h.command.body h.credential with
  | error e =>
    rw [handshake_spec_auth_error build run h conn e hs]
    refine ⟨?_, ?_⟩
    · constructor
      · rintro ⟨r, hr⟩
        cases hr
      · intro hsome
        rw [hinit] at hsome
        cases hsome
    · intro _ _
      rfl
  | ok p =>
    obtain ⟨body, cf⟩ := p
    cases hr : run { h.command with body := body } with
    | error e =>
      rw [handshake_run_error build run h conn body cf e hs hr]
      refine ⟨?_, ?_⟩
      · constructor
        · rintro ⟨r, hrr⟩
          cases hrr
        · intro hsome
          rw [hinit] at hsome
          cases hsome
      · intro _ _
        rfl
    | ok reply =>
      rw [handshake_eq build run h conn body cf reply hs hr]
      by_cases hcond : (Document.containsKey h.command.body "loadBalanced"
          && reply.command_response.service_id.isNone) = true
      · rw [if_pos hcond]
        refine ⟨?_, ?_⟩
        · constructor
          · rintro ⟨r, hrr⟩
            cases hrr
          · intro hsome
            rw [hinit] at hsome
            cases hsome
        · intro _ _
          rfl
      · rw [if_neg hcond]
        cases cf with
        | none =>
          cases hsa : reply.command_response.speculative_authenticate with
          | none =>
            refine ⟨?_, ?_⟩
            · exact ⟨fun _ => rfl, fun _ => ⟨_, rfl⟩⟩
            · intro e he
              cases he
          | some sf =>
            refine ⟨?_, ?_⟩
            · exact ⟨fun _ => rfl, fun _ => ⟨_, rfl⟩⟩
            · intro e he
              cases he
        | some c =>
          cases hsa : reply.command_response.speculative_authenticate with
          | none =>
            refine ⟨?_, ?_⟩
            · exact ⟨fun _ => rfl, fun _ => ⟨_, rfl⟩⟩
            · intro e he
              cases he
          | some sf =>
            refine ⟨?_, ?_⟩
            · exact ⟨fun _ => rfl, fun _ => ⟨_, rfl⟩⟩
            · intro e he
              cases he

/-- C2 witness: on the failing load-balanced scenario, the connection
comes back unchanged. -/
theorem handshake_stream_description_iff_success_witness :
    (Handshaker.handshake noopBuild runNoService lbHandshaker freshConn).1 =
      freshConn :=
  (handshake_stream_description_iff_success noopBuild runNoService lbHandshaker
      freshConn rfl).2
    (MError.incompatibleServer loadBalancingErrorMessage) rfl

/-- C3: on a successful handshake, the result first round is present
exactly when speculative composition produced a client-first and the
reply carries a speculative-authentication response, in which case it
pairs exactly those two values; when the reply omits the response the
first round is absent and no error is raised. -/
theorem handshake_first_round_pairing
    (build : AuthMechanism → Credential → Except MError (Option ClientFirst))
    (run : Command → Except MError IsMasterReply)
    (h : Handshaker) (conn : Connection) (body : Document)
    (cf : Option ClientFirst) (reply : IsMasterReply)
    (hs : set_speculative_auth_info build h.command.body h.credential =
      Except.ok (body, cf))
    (hr : run { h.command with body := body } = Except.ok reply)
    (hlb : Document.containsKey h.command.body "loadBalanced" = true →
      reply.command_response.service_id ≠ none) :
    ∃ conn' r, Handshaker.handshake build run h conn = (conn', Except.ok r) ∧
      r.first_round = Option.bind cf (fun c =>
        Option.map (fun server_first => ClientFirst.into_first_round c server_first)
          reply.command_response.speculative_authenticate) := by
  rw [handshake_eq build run h conn body cf reply hs hr]
  have hcond : (Document.containsKey h.command.body "loadBalanced"
      && reply.command_response.service_id.isNone) = false := by
    cases hck : Document.containsKey h.command.body "loadBalanced" with
    | false => rfl
    | true =>
      have hney := hlb hck
      cases hsid : reply.command_response.service_id with
      | none => exact absurd hsid hney
      | some sid => simp [hsid]
  rw [hcond]
  simp only [Bool.false_eq_true, if_neg, not_false_iff]
  cases cf with
  | none =>
    cases hsa : reply.command_response.speculative_authenticate with
    | none => exact ⟨_, _, rfl, rfl⟩
    | some sf => exact ⟨_, _, rfl, rfl⟩
  | some c =>
    cases hsa : reply.command_response.speculative_authenticate with
    | none => exact ⟨_, _, rfl, rfl⟩
    | some sf => exact ⟨_, _, rfl, rfl⟩

/-- C3 witness: a plain handshake against a reply carrying a speculative
response, with a registry producing no client-first, succeeds with an
absent first round. -/
theorem handshake_first_round_pairing_witness :
    ∃ conn' r,
      Handshaker.handshake noopBuild runWithService plainHandshaker freshConn =
        (conn', Except.ok r) ∧
      r.first_round = Option.bind (none : Option ClientFirst) (fun c =>
        Option.map (fun server_first => ClientFirst.into_first_round c server_first)
          replyWithService.command_response.speculative_authenticate) :=
  handshake_first_round_pairing noopBuild runWithService plainHandshaker
    freshConn plainHandshaker.command.body none replyWithService rfl rfl
    (fun _ hnone => Option.noConfusion hnone)

/-- C4: on a Handshaker built without a credential, speculative
composition returns no speculative state and leaves the command body
untouched, the outbound command never contains the
`speculativeAuthenticate` key, and the first round of a successful
result is absent regardless of the server reply. -/
theorem handshake_no_credential (env : ProcessEnv)
    (options : Option HandshakerOptions)
    (build : AuthMechanism → Credential → Except MError (Option ClientFirst))
    (run : Command → Except MError IsMasterReply) (conn : Connection)
    (hcred : ∀ opts, options = some opts → opts.credential = none) :
    (Handshaker.new env options).credential = none ∧
    set_speculative_auth_info build (Handshaker.new env options).command.body
        (Handshaker.new env options).credential =
      Except.ok ((Handshaker.new env options).command.body, none) ∧
    Document.containsKey (Handshaker.new env options).command.body
      "speculativeAuthenticate" = false ∧
    (∀ conn' r,
      Handshaker.handshake build run (Handshaker.new env options) conn =
        (conn', Except.ok r) → r.first_round = none) := by
  have hc : (Handshaker.new env options).credential = none := by
    cases options with
    | none => rfl
    | some opts => exact hcred opts rfl
  have hsetEq : set_speculative_auth_info build
      (Handshaker.new env options).command.body
      (Handshaker.new env options).credential =
      Except.ok ((Handshaker.new env options).command.body, none) := by
    rw [hc]
    rfl
  have hkey : Document.containsKey (Handshaker.new env options).command.body
      "speculativeAuthenticate" = false := by
    cases options with
    | none => rfl
    | some opts =>
      obtain ⟨app, cred, di, api, lb⟩ := opts
      have hcnone : cred = none := hcred ⟨app, cred, di, api, lb⟩ rfl
      subst hcnone
      cases api <;> cases lb <;> rfl
  refine ⟨hc, hsetEq, hkey, ?_⟩
  intro conn' r hrun_eq
  cases hr : run { (Handshaker.new env options).command with
      body := (Handshaker.new env options).command.body } with
  | error e =>
    rw [handshake_run_error build run _ conn _ none e hsetEq hr] at hrun_eq
    injection hrun_eq with h1 h2
    cases h2
  | ok reply =>
    rw [handshake_eq build run _ conn _ none reply hsetEq hr] at hrun_eq
    by_cases hcond : (Document.containsKey
        (Handshaker.new env options).command.body "loadBalanced"
        && reply.command_response.service_id.isNone) = true
    · rw [if_pos hcond] at hrun_eq
      injection hrun_eq with h1 h2
      cases h2
    · rw [if_neg hcond] at hrun_eq
      injection hrun_eq with h1 h2
      injection h2 with h2
      cases h2
      rfl

/-- C4 witness: instantiation with no options at all, a registry that
declines, and a run returning a reply without speculative response. -/
theorem handshake_no_credential_witness :
    (Handshaker.new
        { cargo_pkg_version := "2.0.0", os_type := "linux", arch := "x86_64",
          os_version := none, rustc_triple := none, runtime_name := "tokio" }
        none).credential = none :=
  (handshake_no_credential
    { cargo_pkg_version := "2.0.0", os_type := "linux", arch := "x86_64",
      os_version := none, rustc_triple := none, runtime_name := "tokio" }
    none (fun _ _ => Except.ok none)
    (fun _ => Except.ok
      { server_address := "localhost:27017",
        command_response := { service_id := none, speculative_authenticate := none } })
    { stream_description := none }
    (fun _ hopts => by cases hopts)).1

/-- C6: with a credential that declares no mechanism, speculative
composition selects SCRAM-SHA-256 as the fixed default, and under the
modelled mechanism registry the outbound handshake command then carries
a `speculativeAuthenticate` document before sending; the computation is
deterministic across repeated calls with identical inputs. -/
theorem speculative_default_mechanism (env : ProcessEnv)
    (opts : HandshakerOptions) (cred : Credential)
    (hcred : opts.credential = some cred)
    (hmech : cred.mechanism = none) :
    selected_auth_mechanism cred = AuthMechanism.scramSha256 ∧
    (∃ body cf,
      set_speculative_auth_info AuthMechanism.build_speculative_client_first
          (Handshaker.new env (some opts)).command.body
          (Handshaker.new env (some opts)).credential =
        Except.ok (body, some cf) ∧
      Document.containsKey body "speculativeAuthenticate" = true) ∧
    set_speculative_auth_info AuthMechanism.build_speculative_client_first
        (Handshaker.new env (some opts)).command.body
        (Handshaker.new env (some opts)).credential =
      set_speculative_auth_info AuthMechanism.build_speculative_client_first
        (Handshaker.new env (some opts)).command.body
        (Handshaker.new env (some opts)).credential := by
  have hsel : selected_auth_mechanism cred = AuthMechanism.scramSha256 := by
    unfold selected_auth_mechanism
    rw [hmech]
    rfl
  refine ⟨hsel, ?_, rfl⟩
  have hcredh : (Handshaker.new env (some opts)).credential = some cred := hcred
  rw [hcredh, set_speculative_auth_info_some, hsel]
  refine ⟨_, _, rfl, ?_⟩
  rw [Document.containsKey_insert]
  simp

/-- C6 witness: the sample credential declares no mechanism, so
SCRAM-SHA-256 is selected. -/
theorem speculative_default_mechanism_witness :
    selected_auth_mechanism sampleCred = AuthMechanism.scramSha256 :=
  (speculative_default_mechanism sampleEnv credOptions sampleCred rfl rfl).1

/-- C7: supplying a wrapping-library identity with name, version and
platform makes the customized metadata carry the base driver name
followed by a `|` and the wrapper name, the base version followed by a
`|` and the wrapper version, and the platform extended by a `|` and the
wrapper platform; the base identity is first in each joined chain, and
the customized metadata is the identity document attached to the
command. -/
theorem customize_metadata_driver_info (env : ProcessEnv)
    (opts : HandshakerOptions) (di : DriverInfo) (v p : String)
    (hdi : opts.driver_info = some di)
    (hv : di.version = some v)
    (hp : di.platform = some p) :
    (customize_metadata (BASE_CLIENT_METADATA env) opts).driver.name =
      (BASE_CLIENT_METADATA env).driver.name ++ "|" ++ di.name ∧
    (customize_metadata (BASE_CLIENT_METADATA env) opts).driver.version =
      (BASE_CLIENT_METADATA env).driver.version ++ "|" ++ v ∧
    (∀ bp, (BASE_CLIENT_METADATA env).platform = some bp →
      (customize_metadata (BASE_CLIENT_METADATA env) opts).platform =
        some (bp ++ "|" ++ p)) ∧
    Document.get (Handshaker.new env (some opts)).command.body "client" =
      some (ClientMetadata.toBson
        (customize_metadata (BASE_CLIENT_METADATA env) opts)) := by
  obtain ⟨app, cred, di0, api, lb⟩ := opts
  cases hdi
  obtain ⟨dname, dver, dplat⟩ := di
  cases hv
  cases hp
  refine ⟨?_, ?_, ?_, ?_⟩
  · cases app <;> rfl
  · cases app <;> rfl
  · intro bp hbp
    cases app <;>
      simp only [customize_metadata] <;>
      rw [hbp]
  · exact Document.get_insert_self _ _ _

/-- C7 witness: with the sample wrapping identity the driver name is the
base name, a bar, then the wrapper name. -/
theorem customize_metadata_driver_info_witness :
    (customize_metadata (BASE_CLIENT_METADATA sampleEnv) wrapOptions).driver.name =
      (BASE_CLIENT_METADATA sampleEnv).driver.name ++ "|" ++ sampleDriverInfo.name :=
  (customize_metadata_driver_info sampleEnv wrapOptions sampleDriverInfo
    "9" "node" rfl rfl rfl).1

/-- C8: with no application name and no wrapping-library identity, the
identity document attached to the command contains no `application` key
and keeps the unmodified base driver name and version; absent optional
fields (application, platform, OS name, OS version) are omitted from the
emitted documents entirely. -/
theorem metadata_optional_fields_omitted (env : ProcessEnv)
    (opts : HandshakerOptions)
    (happ : opts.app_name = none)
    (hdi : opts.driver_info = none) :
    (customize_metadata (BASE_CLIENT_METADATA env) opts).driver.name =
      (BASE_CLIENT_METADATA env).driver.name ∧
    (customize_metadata (BASE_CLIENT_METADATA env) opts).driver.version =
      (BASE_CLIENT_METADATA env).driver.version ∧
    Document.containsKey
      (ClientMetadata.toDoc (customize_metadata (BASE_CLIENT_METADATA env) opts))
      "application" = false ∧
    Document.get (Handshaker.new env (some opts)).command.body "client" =
      some (ClientMetadata.toBson
        (customize_metadata (BASE_CLIENT_METADATA env) opts)) ∧
    (∀ mm : ClientMetadata,
      (mm.application = none →
        Document.containsKey (ClientMetadata.toDoc mm) "application" = false) ∧
      (mm.platform = none →
        Document.containsKey (ClientMetadata.toDoc mm) "platform" = false) ∧
      (mm.os.name = none →
        Document.containsKey (OsMetadata.toDoc mm.os) "name" = false) ∧
      (mm.os.version = none →
        Document.containsKey (OsMetadata.toDoc mm.os) "version" = false)) := by
  have hm : customize_metadata (BASE_CLIENT_METADATA env) opts =
      BASE_CLIENT_METADATA env := by
    unfold customize_metadata
    rw [happ, hdi]
  have homission : ∀ mm : ClientMetadata,
      (mm.application = none →
        Document.containsKey (ClientMetadata.toDoc mm) "application" = false) ∧
      (mm.platform = none →
        Document.containsKey (ClientMetadata.toDoc mm) "platform" = false) ∧
      (mm.os.name = none →
        Document.containsKey (OsMetadata.toDoc mm.os) "name" = false) ∧
      (mm.os.version = none →
        Document.containsKey (OsMetadata.toDoc mm.os) "version" = false) := by
    intro mm
    obtain ⟨mapp, mdriver, mos, mplat⟩ := mm
    obtain ⟨ot, oname, oa, over⟩ := mos
    refine ⟨?_, ?_, ?_, ?_⟩
    · intro h
      cases h
      cases oname <;> cases over <;> cases mplat <;> rfl
    · intro h
      cases h
      cases mapp <;> cases oname <;> cases over <;> rfl
    · intro h
      cases h
      cases over <;> rfl
    · intro h
      cases h
      cases oname <;> rfl
  refine ⟨?_, ?_, ?_, ?_, homission⟩
  · rw [hm]
  · rw [hm]
  · rw [hm]
    exact (homission (BASE_CLIENT_METADATA env)).1 rfl
  · exact Document.get_insert_self _ _ _

/-- C8 witness: with the empty options the identity document carries no
application key. -/
theorem metadata_optional_fields_omitted_witness :
    Document.containsKey
      (ClientMetadata.toDoc
        (customize_metadata (BASE_CLIENT_METADATA sampleEnv) plainOptions))
      "application" = false :=
  (metadata_optional_fields_omitted sampleEnv plainOptions rfl rfl).2.2.1

/-- C9: the command template built by `Handshaker::new` contains the
`loadBalanced` flag exactly when load-balanced mode was requested
(defaulting to false when unset in the client options), and with a
credential the target database is the credential resolved source and the
body carries the mechanism-negotiation hint. -/
theorem handshaker_new_command_template (env : ProcessEnv)
    (opts : HandshakerOptions) :
    Document.containsKey (Handshaker.new env (some opts)).command.body
      "loadBalanced" = opts.load_balanced ∧
    (∀ cred, opts.credential = some cred →
      (Handshaker.new env (some opts)).command.target_db =
        Credential.resolved_source cred) ∧
    (∀ cred u, opts.credential = some cred → cred.username = some u →
      cred.mechanism = none →
      Document.get (Handshaker.new env (some opts)).command.body
        "saslSupportedMechs" =
        some (Bson.str (Credential.resolved_source cred ++ "." ++ u))) ∧
    (∀ co : ClientOptions,
      (HandshakerOptions.from_client_options co).load_balanced =
        co.load_balanced.getD false) := by
  obtain ⟨app, cred, di, api, lb⟩ := opts
  refine ⟨?_, ?_, ?_, fun _ => rfl⟩
  · cases cred with
    | none => cases api <;> cases lb <;> rfl
    | some c =>
      obtain ⟨user, csrc, cmech⟩ := c
      cases user <;> cases cmech <;> cases api <;> cases lb <;> rfl
  · intro cred' hcred'
    cases hcred'
    cases lb <;> rfl
  · intro cred' u hcred' huser hmech
    cases hcred'
    obtain ⟨user, csrc, cmech⟩ := cred'
    have huser' : user = some u := huser
    have hmech' : cmech = none := hmech
    cases huser'
    cases hmech'
    cases api <;> cases lb <;> rfl

/-- C9 witness: with the sample credential the template targets the
credential resolved source database. -/
theorem handshaker_new_command_template_witness :
    (Handshaker.new sampleEnv (some credOptions)).command.target_db =
      Credential.resolved_source sampleCred :=
  (handshaker_new_command_template sampleEnv credOptions).2.1 sampleCred rfl

/-- C10: `ListIndexes::build` returns a command named `listIndexes`
targeting the namespace database whose body maps the `listIndexes` key to
the collection name, and `handle_response` builds the cursor
specification from exactly the batch-size and max-time options (absent
when the options are absent). -/
theorem listIndexes_build_and_response (ns : MongoNamespace)
    (options : Option ListIndexOptions) (d : StreamDescription)
    (response : CursorBody) :
    (∃ cmd, ListIndexes.build (ListIndexes.new ns options) d = Except.ok cmd ∧
      cmd.name = "listIndexes" ∧ cmd.target_db = ns.db ∧
      Document.get cmd.body "listIndexes" = some (Bson.str ns.coll)) ∧
    (∃ spec,
      ListIndexes.handle_response (ListIndexes.new ns options) response d =
        Except.ok spec ∧
      spec.cursor = response.cursor ∧
      spec.address = StreamDescription.address d ∧
      spec.batch_size = Option.bind options (fun o => o.batch_size) ∧
      spec.max_time = Option.bind options (fun o => o.max_time)) := by
  constructor
  · cases options with
    | none => exact ⟨_, rfl, rfl, rfl, rfl⟩
    | some o =>
      obtain ⟨bs, mt⟩ := o
      cases bs <;> cases mt <;> exact ⟨_, rfl, rfl, rfl, rfl⟩
  · exact ⟨_, rfl, rfl, rfl, rfl, rfl⟩

end MongoDriver
